import Mathlib

/-!
Verification development for the DictionaRead browser extension
(background.js, content.js). JavaScript strings are modelled as
`List Char` / `String`, DOM geometry as rational coordinates, and the
stateful content-script popup lifecycle as explicit state passing.
-/

namespace DictionaRead

/-! ## Character classes used by the sanitizer (background.js, sanitizeText)

JavaScript regex character classes, without the `u` or `i` flags:
`\w` is `[A-Za-z0-9_]`; `\s` is the ECMAScript WhiteSpace plus
LineTerminator set (the same set removed by `String.prototype.trim`). -/

/-- JS `\w`: ASCII letters, ASCII digits and underscore. -/
def isWordCharJS (c : Char) : Bool :=
  c.isAlpha || c.isDigit || c = '_'

/-- JS `\s` (and the set trimmed by `String.prototype.trim`):
space, tab, LF, VT, FF, CR, NBSP, Ogham space mark, the U+2000–U+200A
range, LS, PS, NNBSP, MMSP, ideographic space and the BOM. -/
def isSpaceJS (c : Char) : Bool :=
  c = ' ' || c = '\t' || c = '\n' || c.val = 11 || c.val = 12 || c = '\r' ||
  c.val = 0xa0 || c.val = 0x1680 || (0x2000 ≤ c.val && c.val ≤ 0x200a) ||
  c.val = 0x2028 || c.val = 0x2029 || c.val = 0x202f || c.val = 0x205f ||
  c.val = 0x3000 || c.val = 0xfeff

/-- The character class `[a-zA-Z0-9#]` of the HTML-entity regex
`&[a-zA-Z0-9#]+;` in sanitizeText (background.js line 170). -/
def isEntityBodyChar (c : Char) : Bool :=
  c.isAlpha || c.isDigit || c = '#'

/-- The class `[\w\s'-]` kept by the second replace of sanitizeText
(background.js line 171); everything else is deleted. -/
def isKeptChar (c : Char) : Bool :=
  isWordCharJS c || isSpaceJS c || c = '\'' || c = '-'

/-! ## sanitizeText (background.js lines 168–174) -/

/-- `.replace(/&[a-zA-Z0-9#]+;/g, '')`: delete every substring
consisting of `&`, a nonempty run of `[a-zA-Z0-9#]`, and `;`.
The run is greedy and its characters can never be `;`, so a match at a
given `&` exists iff the maximal entity-body run after it is nonempty
and is followed immediately by `;`. -/
def stripEntities : List Char → List Char
  | [] => []
  | c :: rest =>
    if c = '&' then
      match hdrop : rest.dropWhile isEntityBodyChar with
      | ';' :: tail =>
        if rest.takeWhile isEntityBodyChar = [] then
          c :: stripEntities rest
        else
          stripEntities tail
      | _ => c :: stripEntities rest
    else c :: stripEntities rest
termination_by l => l.length
decreasing_by
  · simp
  · simp only [List.length_cons]
    have h1 : (rest.dropWhile isEntityBodyChar).length ≤ rest.length :=
      (List.dropWhile_suffix isEntityBodyChar).sublist.length_le
    rw [hdrop] at h1
    simp only [List.length_cons] at h1
    omega
  · simp
  · simp

/-- `.replace(/\s+/g, ' ')`: replace every maximal nonempty run of JS
whitespace by a single ASCII space. `prevSpace` records whether the
previous character belonged to a whitespace run that has already been
replaced by its single space. -/
def collapseWsAux (prevSpace : Bool) : List Char → List Char
  | [] => []
  | c :: rest =>
    if isSpaceJS c then
      if prevSpace then collapseWsAux true rest
      else ' ' :: collapseWsAux true rest
    else c :: collapseWsAux false rest

/-- `.replace(/\s+/g, ' ')` on a whole string. -/
def collapseWs (l : List Char) : List Char :=
  collapseWsAux false l

/-- `String.prototype.trim`: drop JS whitespace from both ends. -/
def jsTrim (l : List Char) : List Char :=
  ((l.dropWhile isSpaceJS).reverse.dropWhile isSpaceJS).reverse

/-- The body of sanitizeText on character lists: strip HTML entities,
keep only `[\w\s'-]`, collapse whitespace runs to single spaces, trim. -/
def sanitizeList (l : List Char) : List Char :=
  jsTrim (collapseWs ((stripEntities l).filter isKeptChar))

/-- sanitizeText (background.js lines 168–174). -/
def sanitizeText (s : String) : String :=
  ⟨sanitizeList s.data⟩

/-! ## Definition Fetcher (background.js lines 181–224) -/

/-- A JSON value as settled by `response.json()`. `undefinedV` models
the JavaScript `undefined` value. -/
inductive JsValue where
  | arr (elems : List JsValue)
  | str (s : String)
  | num (n : Int)
  | boolean (b : Bool)
  | obj
  | nul
  | undefinedV

/-- `Array.isArray(v)`. -/
def isArrayJS : JsValue → Bool
  | .arr _ => true
  | _ => false

/-- `v.length` on an array (the code only reads it after `Array.isArray`). -/
def lengthJS : JsValue → Nat
  | .arr l => l.length
  | _ => 0

/-- `v[0]`: first element of an array, `undefined` when absent. -/
def indexZeroJS : JsValue → JsValue
  | .arr (x :: _) => x
  | _ => .undefinedV

/-- The `{success, data/error, word}` envelope the fetcher resolves with. -/
inductive LookupResult where
  | success (word : String) (data : JsValue)
  | failure (word : String) (error : String)

/-- How the `Promise.race` of the API request and the 5000ms timeout
settles (background.js lines 183–198): the parsed JSON value when the
fetch resolves with an ok response whose body parses; a thrown
`Error('API timeout')` when the timeout rejects first; a thrown
`Error('API returned <status>: <statusText>')` when the response is
non-2xx; or any other thrown error (network or body-parse failure)
with its message. -/
inductive SettledEvent where
  | value (v : JsValue)
  | timeout
  | httpError (status : Nat) (statusText : String)
  | thrown (msg : String)

/-- The message of the error thrown on each non-value settlement. -/
def settledErrorMessage : SettledEvent → String
  | .timeout => "API timeout"
  | .httpError status statusText =>
      "API returned " ++ toString status ++ ": " ++ statusText
  | .thrown msg => msg
  | .value _ => ""

/-- Lines 200–213: process the settled JSON value. -/
def processApiResult (word : String) (result : JsValue) : LookupResult :=
  if isArrayJS result && lengthJS result > 0 then
    .success word (indexZeroJS result)
  else
    .failure word "No definition found"

/-- fetchDictionaryDefinition (background.js lines 181–224) as a
function of the word and of how the race settled. The catch-all maps a
thrown error to `Request timed out` exactly when its message equals
`API timeout`, and to `Failed to fetch definition` otherwise; the
function is total, so the fetcher never throws to its caller. -/
def fetchDictionaryDefinition (word : String) (ev : SettledEvent) : LookupResult :=
  match ev with
  | .value v => processApiResult word v
  | e =>
    if settledErrorMessage e = "API timeout" then
      .failure word "Request timed out"
    else
      .failure word "Failed to fetch definition"

/-! ## Lookup flow of the command handler (background.js lines 43–73)

`selectedText` is bound with `const` at line 43; line 55 then executes
`selectedText = selectedText.substring(0, 50)`. In JavaScript an
assignment to a `const` binding throws
`TypeError: Assignment to constant variable.` (in sloppy and strict
mode alike), which the handler's top-level `catch` turns into a
`showError` message. -/

/-- Outcome of the command handler between obtaining the selected text
and issuing the `showLoading` message. -/
inductive FlowOutcome where
  | noSelection
  | threwTypeError (msg : String)
  | emptyAfterSanitize
  | lookup (sanitized : String)
deriving DecidableEq, Repr

/-- Lines 47–73 of background.js, applied to the (already trimmed)
string returned by getSelectedText: abort on empty selection; for a
selection longer than 50 characters the truncation statement assigns to
the `const` binding and throws; otherwise sanitize, abort if empty, and
proceed to the lookup on the sanitized text. -/
def lookupFlow (selectedText : String) : FlowOutcome :=
  if selectedText.data.length = 0 || (jsTrim selectedText.data).length = 0 then
    .noSelection
  else if selectedText.data.length > 50 then
    .threwTypeError "Assignment to constant variable."
  else
    let s := sanitizeText selectedText
    if s.data.length < 1 then .emptyAfterSanitize
    else .lookup s

/-! ## Message Router (background.js lines 107–138) -/

/-- `pat` occurs as a contiguous substring of `hay`
(JS `String.prototype.includes`). -/
def listPrefixOf : List Char → List Char → Bool
  | [], _ => true
  | _ :: _, [] => false
  | a :: as, b :: bs => (a == b) && listPrefixOf as bs

/-- Whether `pat` occurs contiguously inside `hay`. -/
def hasSubstr (hay pat : List Char) : Bool :=
  match hay with
  | [] => pat.isEmpty
  | _ :: t => listPrefixOf pat hay || hasSubstr t pat

/-- Line 113–114: the error message indicates the receiving side is not
initialized. -/
def isNotReadyError (msg : String) : Bool :=
  hasSubstr msg.data "Could not establish connection".data ||
  hasSubstr msg.data "Receiving end does not exist".data

/-- Outcome of one `chrome.tabs.sendMessage` attempt: resolves, or
rejects with an error carrying a message. -/
inductive SendAttempt where
  | ok
  | fail (msg : String)
deriving DecidableEq, Repr

/-- Environment of one delivery: how the first send would settle,
whether `chrome.scripting.executeScript` would succeed, and how the
retry send would settle. -/
structure RouterEnv where
  firstAttempt : SendAttempt
  injectSucceeds : Bool
  retryAttempt : SendAttempt
deriving DecidableEq, Repr

/-- Observable trace of one call to sendMessageToContentScript. -/
structure RouterTrace where
  result : Bool
  sendAttempts : Nat
  injectAttempted : Bool
  waitedMs : Nat
deriving DecidableEq, Repr

/-- sendMessageToContentScript (background.js lines 107–138): try the
direct send; on a not-ready failure inject content.js, wait 100ms and
retry once, returning false if the retry fails; on any other failure,
or if the injection itself throws, log and return false. The function
is total: the router never throws. -/
def sendMessageToContentScript (env : RouterEnv) : RouterTrace :=
  match env.firstAttempt with
  | .ok => ⟨true, 1, false, 0⟩
  | .fail msg =>
    if isNotReadyError msg then
      if env.injectSucceeds then
        match env.retryAttempt with
        | .ok => ⟨true, 2, true, 100⟩
        | .fail _ => ⟨false, 2, true, 100⟩
      else ⟨false, 1, true, 0⟩
    else ⟨false, 1, false, 0⟩

/-! ## Popup Lifecycle Manager (content.js)

The content script's module state is `currentPopup`, `currentSelection`
and `isPopupVisible` (lines 7–9), plus the page itself: the number of
popup elements appended to the document and the number of
document-level `keydown` (Escape) and `click` (outside-click) listeners
registered by setupPopupEventListeners. -/

/-- Abstract state of the page and of the content script's module
variables. -/
structure CState where
  domPopups : Nat
  current : Bool
  hasSelection : Bool
  escListeners : Nat
  clickListeners : Nat
  isPopupVisible : Bool
deriving DecidableEq, Repr

/-- The state before any message is handled: no popup, no retained
selection, no listeners. -/
def initCState : CState :=
  ⟨0, false, false, 0, 0, false⟩

/-- removeCurrentPopup (content.js lines 439–458): when a popup is
tracked, remove its two document-level listeners, detach it from the
DOM, and clear `currentPopup`, `currentSelection`, `isPopupVisible`;
otherwise do nothing. -/
def removeCurrentPopup (s : CState) : CState :=
  if s.current then
    { domPopups := s.domPopups - 1
      current := false
      hasSelection := false
      escListeners := s.escListeners - 1
      clickListeners := s.clickListeners - 1
      isPopupVisible := false }
  else s

/-- The construction tail shared by the three show handlers: record the
selection range, create the popup element, append it to the document
(positionPopup line 295), set `isPopupVisible`, and register the Escape
and outside-click listeners (setupPopupEventListeners). -/
def createPopupOnPage (s : CState) : CState :=
  { domPopups := s.domPopups + 1
    current := true
    hasSelection := true
    escListeners := s.escListeners + 1
    clickListeners := s.clickListeners + 1
    isPopupVisible := true }

/-- showLoadingPopup (lines 49–77): remove any existing popup; return
if the page selection has no range; otherwise build and show the
loading popup. `hasRange` is whether `window.getSelection().rangeCount`
is nonzero at handling time. -/
def showLoadingPopup (hasRange : Bool) (s : CState) : CState :=
  let s1 := removeCurrentPopup s
  if hasRange then createPopupOnPage s1 else s1

/-- showErrorPopup (lines 127–156): same shape as showLoadingPopup. -/
def showErrorPopup (hasRange : Bool) (s : CState) : CState :=
  let s1 := removeCurrentPopup s
  if hasRange then createPopupOnPage s1 else s1

/-- showDefinitionPopup (lines 84–120): remove any existing popup; on a
failure envelope delegate to showErrorPopup; otherwise check the
selection range and build the definition popup. -/
def showDefinitionPopup (success hasRange : Bool) (s : CState) : CState :=
  let s1 := removeCurrentPopup s
  if !success then
    showErrorPopup hasRange s1
  else if hasRange then createPopupOnPage s1 else s1

/-- An incoming runtime message (content.js lines 15–43), together with
the environment facts the handler consults: whether the page selection
has a range, and for `showDefinition` whether the envelope is a
success. Unknown actions hit the switch's default case. -/
inductive Msg where
  | showLoading (hasRange : Bool)
  | showDefinition (success : Bool) (hasRange : Bool)
  | showError (hasRange : Bool)
  | unknown
deriving DecidableEq, Repr

/-- The onMessage listener: dispatch on the action and respond
`{success: true}` (none of the modelled handlers throw). -/
def handleMessage (m : Msg) (s : CState) : CState × Bool :=
  match m with
  | .showLoading hasRange => (showLoadingPopup hasRange s, true)
  | .showDefinition success hasRange => (showDefinitionPopup success hasRange s, true)
  | .showError hasRange => (showErrorPopup hasRange s, true)
  | .unknown => (s, true)

/-- State after the content script handles a sequence of messages. -/
def runMessages (msgs : List Msg) : CState :=
  msgs.foldl (fun s m => (handleMessage m s).1) initCState

/-- Structural invariant of reachable states: the page holds exactly
one popup element and one listener of each kind when a popup is
tracked, and none otherwise. -/
def WellFormed (s : CState) : Prop :=
  s.domPopups = (if s.current then 1 else 0) ∧
  s.escListeners = (if s.current then 1 else 0) ∧
  s.clickListeners = (if s.current then 1 else 0)

/-! ## Contrast engine (content.js lines 214–279) -/

/-- Environment of detectThemeAndContrast: the result of matching the
body's computed background color against `rgb\((\d+),\s*(\d+),\s*(\d+)\)`
(`none` when the color string does not parse), the two `dark` marker
classes, and the two near-black literal substring tests on the color
string. -/
structure ThemeEnv where
  parsedRGB : Option (Nat × Nat × Nat)
  bodyDark : Bool
  rootDark : Bool
  bgIncludesBlack : Bool
  bgIncludesNearBlack : Bool
deriving DecidableEq, Repr

/-- The luma weighting `(r * 299 + g * 587 + b * 114) / 1000`
(content.js line 225). -/
def brightnessOf (r g b : ℚ) : ℚ :=
  (r * 299 + g * 587 + b * 114) / 1000

/-- Lines 220–226: brightness of the page, defaulting to 255 (light)
when the background color does not parse as `rgb(r, g, b)`. -/
def computedBrightness (e : ThemeEnv) : ℚ :=
  match e.parsedRGB with
  | some (r, g, b) => brightnessOf r g b
  | none => 255

/-- Lines 229–233: the dark-theme decision. -/
def isDarkTheme (e : ThemeEnv) : Bool :=
  decide (computedBrightness e < 128) || e.bodyDark || e.rootDark ||
  e.bgIncludesBlack || e.bgIncludesNearBlack

/-! ## Positioning engine (content.js lines 286–360) -/

/-- The selection's bounding client rectangle, in viewport
coordinates. -/
structure Rect where
  top : ℚ
  bottom : ℚ
  left : ℚ
  width : ℚ
deriving DecidableEq, Repr

/-- Environment of positionPopup: selection rectangle, scroll offsets,
the popup's measured size (after the invisible render), and the
viewport size. -/
structure PosEnv where
  rect : Rect
  scrollTop : ℚ
  scrollLeft : ℚ
  popupHeight : ℚ
  popupWidth : ℚ
  innerHeight : ℚ
  innerWidth : ℚ
deriving DecidableEq, Repr

/-- The final position applied to the popup (page coordinates) and the
side chosen. -/
structure PosResult where
  top : ℚ
  left : ℚ
  above : Bool
deriving DecidableEq, Repr

/-- positionPopup (content.js lines 286–360). -/
def positionPopup (e : PosEnv) : PosResult :=
  let spaceAbove := e.rect.top
  let spaceBelow := e.innerHeight - e.rect.bottom
  let margin : ℚ := 5
  let vertical : Bool × ℚ :=
    if spaceAbove ≥ e.popupHeight + margin then
      (true, e.rect.top + e.scrollTop - e.popupHeight - margin)
    else if spaceBelow ≥ e.popupHeight + margin then
      (false, e.rect.bottom + e.scrollTop + margin)
    else if spaceAbove > spaceBelow then
      (true, max 10 (e.rect.top + e.scrollTop - e.popupHeight - margin))
    else
      (false, min (e.innerHeight + e.scrollTop - e.popupHeight - 10)
                  (e.rect.bottom + e.scrollTop + margin))
  let rawLeft := e.rect.left + e.scrollLeft + e.rect.width / 2 - e.popupWidth / 2
  let minLeft : ℚ := 10
  let maxLeft := e.innerWidth - e.popupWidth - 10
  let finalLeft :=
    if rawLeft < minLeft then minLeft
    else if rawLeft > maxLeft then maxLeft
    else rawLeft
  ⟨vertical.2, finalLeft, vertical.1⟩



/-! ## Lemmas about the sanitizer -/

/-- The head of a `dropWhile` result fails the predicate. -/
lemma dropWhile_head_false {p : Char → Bool} {l : List Char} {d : Char}
    {t : List Char} (h : List.dropWhile p l = d :: t) : p d = false := by
  induction l with
  | nil => simp [List.dropWhile] at h
  | cons c rest ih =>
    rw [List.dropWhile_cons] at h
    by_cases hc : p c = true
    · rw [if_pos hc] at h
      exact ih h
    · rw [if_neg hc] at h
      injection h with h1 _
      rw [← h1]
      simpa using hc

/-- `dropWhile` is idempotent. -/
lemma dropWhile_idem (p : Char → Bool) (l : List Char) :
    (l.dropWhile p).dropWhile p = l.dropWhile p := by
  cases h : l.dropWhile p with
  | nil => simp
  | cons d t =>
    rw [List.dropWhile_cons, dropWhile_head_false h]
    simp

/-- Every character of `collapseWsAux b l` is a space or comes from `l`. -/
lemma mem_collapseWsAux {c : Char} :
    ∀ (l : List Char) (b : Bool), c ∈ collapseWsAux b l → c = ' ' ∨ c ∈ l := by
  intro l
  induction l with
  | nil => intro b h; simp [collapseWsAux] at h
  | cons d rest ih =>
    intro b h
    by_cases hd : isSpaceJS d = true
    · rw [collapseWsAux, if_pos hd] at h
      cases b with
      | true =>
        rcases ih true h with h' | h'
        · exact Or.inl h'
        · exact Or.inr (List.mem_cons_of_mem _ h')
      | false =>
        rcases List.mem_cons.mp h with h' | h'
        · exact Or.inl h'
        · rcases ih true h' with h'' | h''
          · exact Or.inl h''
          · exact Or.inr (List.mem_cons_of_mem _ h'')
    · rw [collapseWsAux, if_neg hd] at h
      rcases List.mem_cons.mp h with h' | h'
      · exact Or.inr (h' ▸ List.mem_cons_self d rest)
      · rcases ih false h' with h'' | h''
        · exact Or.inl h''
        · exact Or.inr (List.mem_cons_of_mem _ h'')

/-- After a whitespace run has been consumed, the output cannot start
with a whitespace character. -/
lemma collapseWsAux_true_head :
    ∀ (l : List Char) {y : Char}, (collapseWsAux true l).head? = some y →
      isSpaceJS y = false := by
  intro l
  induction l with
  | nil => intro y h; simp [collapseWsAux] at h
  | cons d rest ih =>
    intro y h
    by_cases hd : isSpaceJS d = true
    · rw [collapseWsAux, if_pos hd] at h
      exact ih h
    · rw [collapseWsAux, if_neg hd] at h
      simp only [List.head?_cons, Option.some.injEq] at h
      rw [← h]
      simpa using hd

/-- The pairwise relation "not both whitespace". -/
def NoWsPair (a b : Char) : Prop := ¬(isSpaceJS a = true ∧ isSpaceJS b = true)

/-- `collapseWsAux` leaves no two adjacent whitespace characters. -/
lemma chain'_collapseWsAux :
    ∀ (l : List Char) (b : Bool), List.Chain' NoWsPair (collapseWsAux b l) := by
  intro l
  induction l with
  | nil => intro b; simp [collapseWsAux]
  | cons d rest ih =>
    intro b
    by_cases hd : isSpaceJS d = true
    · rw [collapseWsAux, if_pos hd]
      cases b with
      | true => simpa using ih true
      | false =>
        simp only [Bool.false_eq_true, if_false]
        rw [List.chain'_cons']
        refine ⟨?_, ih true⟩
        intro y hy hcon
        have := collapseWsAux_true_head rest hy
        rw [this] at hcon
        exact Bool.false_ne_true hcon.2
    · rw [collapseWsAux, if_neg hd]
      rw [List.chain'_cons']
      refine ⟨?_, ih false⟩
      intro y _ hcon
      exact hd hcon.1

/-- The trimmed list is a prefix of the front-trimmed list. -/
lemma jsTrim_prefix_dropWhile (m : List Char) :
    jsTrim m <+: m.dropWhile isSpaceJS := by
  rw [jsTrim]
  have h : (m.dropWhile isSpaceJS).reverse.dropWhile isSpaceJS
      <:+ (m.dropWhile isSpaceJS).reverse := List.dropWhile_suffix _
  have h2 := List.reverse_prefix.mpr h
  rwa [List.reverse_reverse] at h2

/-- Characters of the trimmed list come from the original list. -/
lemma mem_jsTrim {c : Char} {m : List Char} (h : c ∈ jsTrim m) : c ∈ m := by
  rw [jsTrim, List.mem_reverse] at h
  have h1 := (List.dropWhile_suffix isSpaceJS).sublist.subset h
  rw [List.mem_reverse] at h1
  exact (List.dropWhile_suffix isSpaceJS).sublist.subset h1

/-- Trimming preserves the no-adjacent-whitespace property. -/
lemma jsTrim_chain' {m : List Char} (h : List.Chain' NoWsPair m) :
    List.Chain' NoWsPair (jsTrim m) := by
  have h1 : List.Chain' NoWsPair (m.dropWhile isSpaceJS) :=
    h.suffix (List.dropWhile_suffix _)
  exact h1.prefix (jsTrim_prefix_dropWhile m)

/-- A trimmed list does not start with whitespace. -/
lemma jsTrim_front (m : List Char) :
    (jsTrim m).dropWhile isSpaceJS = jsTrim m := by
  cases h : jsTrim m with
  | nil => simp
  | cons c t =>
    have hp := jsTrim_prefix_dropWhile m
    rw [h] at hp
    obtain ⟨u, hu⟩ := hp
    have hmc : m.dropWhile isSpaceJS = c :: (t ++ u) := by
      rw [← hu]; simp
    have hc : isSpaceJS c = false := dropWhile_head_false hmc
    rw [List.dropWhile_cons, hc]
    simp

/-- A trimmed list does not end with whitespace. -/
lemma jsTrim_back (m : List Char) :
    (jsTrim m).reverse.dropWhile isSpaceJS = (jsTrim m).reverse := by
  rw [jsTrim, List.reverse_reverse]
  exact dropWhile_idem _ _

/-- Every character of the sanitizer's output lies in `[\w\s'-]`. -/
lemma mem_sanitizeList {c : Char} {l : List Char}
    (hc : c ∈ sanitizeList l) : isKeptChar c = true := by
  rw [sanitizeList] at hc
  have hc2 : c ∈ collapseWs ((stripEntities l).filter isKeptChar) := mem_jsTrim hc
  rcases mem_collapseWsAux _ false hc2 with h | h
  · rw [h]; decide
  · exact (List.mem_filter.mp h).2

/-- C4: for every input string, the sanitizer's output contains only
characters matching `[\w\s'-]`, contains no HTML-entity substring (no
`&...;` sequence), contains no run of two or more whitespace
characters, and is trimmed of leading and trailing whitespace. -/
theorem sanitizeText_contract (s : String) :
    (sanitizeText s).data.all isKeptChar = true ∧
    (¬ ∃ l₁ l₂ l₃, (sanitizeText s).data = l₁ ++ '&' :: (l₂ ++ ';' :: l₃)) ∧
    List.Chain' NoWsPair (sanitizeText s).data ∧
    (sanitizeText s).data.dropWhile isSpaceJS = (sanitizeText s).data ∧
    (sanitizeText s).data.reverse.dropWhile isSpaceJS = (sanitizeText s).data.reverse := by
  have hdata : (sanitizeText s).data = sanitizeList s.data := rfl
  refine ⟨?_, ?_, ?_, ?_, ?_⟩
  · rw [hdata]
    exact List.all_eq_true.mpr (fun c hc => mem_sanitizeList hc)
  · rintro ⟨l₁, l₂, l₃, h⟩
    have hamp : ('&' : Char) ∈ (sanitizeText s).data := by
      rw [h]; simp
    have := mem_sanitizeList (hdata ▸ hamp)
    exact absurd this (by decide)
  · rw [hdata, sanitizeList]
    exact jsTrim_chain' (chain'_collapseWsAux _ false)
  · rw [hdata, sanitizeList]
    exact jsTrim_front _
  · rw [hdata, sanitizeList]
    exact jsTrim_back _

/-- Concrete instance of the sanitizer contract. -/
theorem sanitizeText_contract_witness :
    (sanitizeText "a&amp;  <b>c</b>!").data.all isKeptChar = true ∧
    (¬ ∃ l₁ l₂ l₃, (sanitizeText "a&amp;  <b>c</b>!").data
        = l₁ ++ '&' :: (l₂ ++ ';' :: l₃)) ∧
    List.Chain' NoWsPair (sanitizeText "a&amp;  <b>c</b>!").data ∧
    (sanitizeText "a&amp;  <b>c</b>!").data.dropWhile isSpaceJS
        = (sanitizeText "a&amp;  <b>c</b>!").data ∧
    (sanitizeText "a&amp;  <b>c</b>!").data.reverse.dropWhile isSpaceJS
        = (sanitizeText "a&amp;  <b>c</b>!").data.reverse :=
  sanitizeText_contract "a&amp;  <b>c</b>!"

/-! ## Claims about the command handler and the fetcher -/

/-- C1: claimed — a selection longer than 50 characters is truncated to
its first 50 characters before sanitization and the lookup proceeds on
the sanitized truncated text. What the code does instead — the
truncation statement at background.js line 55 assigns to the `const`
binding `selectedText` of line 43, which throws a TypeError, so for a
51-character selection the flow takes the error path and the sanitizer
is never invoked on the first 50 characters. -/
theorem lookupFlow_long_selection_throws :
    lookupFlow ⟨List.replicate 51 'a'⟩
        = .threwTypeError "Assignment to constant variable." ∧
    lookupFlow ⟨List.replicate 51 'a'⟩
        ≠ .lookup (sanitizeText ⟨List.replicate 50 'a'⟩) := by
  constructor
  · decide
  · intro h
    rw [(by decide : lookupFlow ⟨List.replicate 51 'a'⟩
        = .threwTypeError "Assignment to constant variable.")] at h
    exact FlowOutcome.noConfusion h

/-- An `API returned <status>: <statusText>` message never equals the
timeout marker `API timeout`. -/
lemma api_returned_ne_timeout (a b : String) :
    ("API returned " ++ a ++ ": " ++ b) ≠ "API timeout" := by
  intro h
  have h2 := congrArg String.length h
  simp only [String.length_append] at h2
  have e1 : ("API returned " : String).length = 13 := rfl
  have e2 : (": " : String).length = 2 := rfl
  have e3 : ("API timeout" : String).length = 11 := rfl
  omega

/-- C2 counterexample: an HTTP 404 with statusText `Not Found` yields
the generic reason `Failed to fetch definition`, not the claimed
`404 Not Found`. -/
theorem fetch_http_error_reason_cex :
    fetchDictionaryDefinition "hello" (.httpError 404 "Not Found")
        = .failure "hello" "Failed to fetch definition" ∧
    fetchDictionaryDefinition "hello" (.httpError 404 "Not Found")
        ≠ .failure "hello" "404 Not Found" := by
  constructor
  · simp only [fetchDictionaryDefinition, settledErrorMessage]
    rw [if_neg (api_returned_ne_timeout (toString 404) "Not Found")]
  · simp only [fetchDictionaryDefinition, settledErrorMessage]
    rw [if_neg (api_returned_ne_timeout (toString 404) "Not Found")]
    intro h
    injection h with _ h2
    exact absurd h2 (by decide)

/-- C2 amended: the timeout settling first yields reason
`Request timed out`; an HTTP non-2xx response throws internally and,
like any other thrown error, is normalized by the catch-all to reason
`Failed to fetch definition`; the fetcher is a total function and never
throws to its caller. -/
theorem fetch_failure_reasons (word statusText msg : String) (status : Nat) :
    fetchDictionaryDefinition word .timeout
        = .failure word "Request timed out" ∧
    fetchDictionaryDefinition word (.httpError status statusText)
        = .failure word "Failed to fetch definition" ∧
    (msg ≠ "API timeout" →
      fetchDictionaryDefinition word (.thrown msg)
          = .failure word "Failed to fetch definition") := by
  refine ⟨rfl, ?_, ?_⟩
  · simp only [fetchDictionaryDefinition, settledErrorMessage]
    rw [if_neg (api_returned_ne_timeout (toString status) statusText)]
  · intro h
    simp only [fetchDictionaryDefinition, settledErrorMessage]
    rw [if_neg h]

/-- Concrete instance of the amended fetcher-failure claim. -/
theorem fetch_failure_reasons_witness :
    fetchDictionaryDefinition "hi" .timeout = .failure "hi" "Request timed out" ∧
    fetchDictionaryDefinition "hi" (.httpError 500 "Internal Server Error")
        = .failure "hi" "Failed to fetch definition" ∧
    fetchDictionaryDefinition "hi" (.thrown "TypeError: Failed to fetch")
        = .failure "hi" "Failed to fetch definition" :=
  ⟨(fetch_failure_reasons "hi" "Internal Server Error"
      "TypeError: Failed to fetch" 500).1,
   (fetch_failure_reasons "hi" "Internal Server Error"
      "TypeError: Failed to fetch" 500).2.1,
   (fetch_failure_reasons "hi" "Internal Server Error"
      "TypeError: Failed to fetch" 500).2.2 (by decide)⟩

/-- C7: a settled JSON array with at least one element yields Success
carrying the looked-up word and exactly the first element (the rest are
ignored); an empty array or a non-array yields Failure with reason
`No definition found`. -/
theorem fetch_first_element (word : String) :
    (∀ (x : JsValue) (xs : List JsValue),
      fetchDictionaryDefinition word (.value (.arr (x :: xs)))
          = .success word x) ∧
    (∀ v : JsValue, isArrayJS v = false ∨ v = .arr [] →
      fetchDictionaryDefinition word (.value v)
          = .failure word "No definition found") := by
  constructor
  · intro x xs
    simp only [fetchDictionaryDefinition, processApiResult]
    rw [if_pos]
    · rfl
    · simp [isArrayJS, lengthJS]
  · intro v hv
    simp only [fetchDictionaryDefinition, processApiResult]
    rw [if_neg]
    rcases hv with h | h
    · simp [h]
    · subst h
      simp [isArrayJS, lengthJS]

/-- Concrete instance of the first-element claim. -/
theorem fetch_first_element_witness :
    fetchDictionaryDefinition "run" (.value (.arr [.str "entry0", .str "entry1"]))
        = .success "run" (.str "entry0") ∧
    fetchDictionaryDefinition "run" (.value (.arr []))
        = .failure "run" "No definition found" ∧
    fetchDictionaryDefinition "run" (.value .obj)
        = .failure "run" "No definition found" :=
  ⟨(fetch_first_element "run").1 (.str "entry0") [.str "entry1"],
   (fetch_first_element "run").2 (.arr []) (Or.inr rfl),
   (fetch_first_element "run").2 .obj (Or.inl rfl)⟩

/-- C6: the router first attempts a direct send; it attempts injection
iff that send failed with a not-ready error; after a successful
injection it waits 100ms and retries exactly once, so at most two send
attempts ever occur; a failed retry (and any non-not-ready failure) is
swallowed into a `false` return — the router, being a total function,
never throws. -/
theorem sendMessageToContentScript_policy (env : RouterEnv) :
    (sendMessageToContentScript env).sendAttempts ≤ 2 ∧
    (env.firstAttempt = .ok →
      sendMessageToContentScript env = ⟨true, 1, false, 0⟩) ∧
    (∀ msg, env.firstAttempt = .fail msg →
      ((sendMessageToContentScript env).injectAttempted = true
        ↔ isNotReadyError msg = true)) ∧
    (∀ msg, env.firstAttempt = .fail msg → isNotReadyError msg = true →
      env.injectSucceeds = true →
        (sendMessageToContentScript env).waitedMs = 100 ∧
        (sendMessageToContentScript env).sendAttempts = 2 ∧
        ((sendMessageToContentScript env).result = true
          ↔ env.retryAttempt = .ok)) ∧
    (∀ msg, env.firstAttempt = .fail msg → isNotReadyError msg = false →
      (sendMessageToContentScript env).result = false ∧
      (sendMessageToContentScript env).sendAttempts = 1) := by
  obtain ⟨first, inject, retry⟩ := env
  cases first with
  | ok =>
    refine ⟨by simp [sendMessageToContentScript], fun _ => rfl, ?_, ?_, ?_⟩ <;>
      intro msg h <;> exact absurd h (by simp)
  | fail m =>
    by_cases hm : isNotReadyError m = true
    · cases inject with
      | true =>
        cases retry with
        | ok =>
          refine ⟨?_, by simp, ?_, ?_, ?_⟩
          · simp [sendMessageToContentScript, hm]
          · intro msg h
            injection h with h1
            subst h1
            simp [sendMessageToContentScript, hm]
          · intro msg h _ _
            injection h with h1
            subst h1
            simp [sendMessageToContentScript, hm]
          · intro msg h h2
            injection h with h1
            subst h1
            rw [hm] at h2
            exact absurd h2 (by simp)
        | fail m2 =>
          refine ⟨?_, by simp, ?_, ?_, ?_⟩
          · simp [sendMessageToContentScript, hm]
          · intro msg h
            injection h with h1
            subst h1
            simp [sendMessageToContentScript, hm]
          · intro msg h _ _
            injection h with h1
            subst h1
            simp [sendMessageToContentScript, hm]
          · intro msg h h2
            injection h with h1
            subst h1
            rw [hm] at h2
            exact absurd h2 (by simp)
      | false =>
        refine ⟨?_, by simp, ?_, ?_, ?_⟩
        · simp [sendMessageToContentScript, hm]
        · intro msg h
          injection h with h1
          subst h1
          simp [sendMessageToContentScript, hm]
        · intro msg h _ h3
          exact absurd h3 (by simp)
        · intro msg h h2
          injection h with h1
          subst h1
          rw [hm] at h2
          exact absurd h2 (by simp)
    · rw [Bool.not_eq_true] at hm
      refine ⟨?_, by simp, ?_, ?_, ?_⟩
      · simp [sendMessageToContentScript, hm]
      · intro msg h
        injection h with h1
        subst h1
        simp [sendMessageToContentScript, hm]
      · intro msg h h2
        injection h with h1
        subst h1
        rw [hm] at h2
        exact absurd h2 (by simp)
      · intro msg h _
        injection h with h1
        subst h1
        simp [sendMessageToContentScript, hm]

/-- Concrete instance of the router delivery policy: a not-ready
failure followed by a successful injection and a failing retry. -/
theorem sendMessageToContentScript_policy_witness :
    (sendMessageToContentScript
      ⟨.fail "Receiving end does not exist.", true, .fail "x"⟩).waitedMs = 100 ∧
    (sendMessageToContentScript
      ⟨.fail "Receiving end does not exist.", true, .fail "x"⟩).sendAttempts = 2 ∧
    ((sendMessageToContentScript
      ⟨.fail "Receiving end does not exist.", true, .fail "x"⟩).result = true
        ↔ (SendAttempt.fail "x") = .ok) :=
  (sendMessageToContentScript_policy
    ⟨.fail "Receiving end does not exist.", true, .fail "x"⟩).2.2.2.1
    "Receiving end does not exist." rfl (by decide) rfl

/-- C8: the luma brightness is 0 on black and 255 on white; an
unparsable background color defaults the brightness to 255; and for
every parsed RGB triple in range, a brightness below 128 forces the
dark-theme decision. -/
theorem brightness_and_dark_decision :
    brightnessOf 0 0 0 = 0 ∧
    brightnessOf 255 255 255 = 255 ∧
    (∀ e : ThemeEnv, e.parsedRGB = none → computedBrightness e = 255) ∧
    (∀ (e : ThemeEnv) (r g b : Nat), e.parsedRGB = some (r, g, b) →
      r ≤ 255 → g ≤ 255 → b ≤ 255 →
      computedBrightness e < 128 → isDarkTheme e = true) := by
  refine ⟨by norm_num [brightnessOf], by norm_num [brightnessOf], ?_, ?_⟩
  · intro e h
    rw [computedBrightness, h]
  · intro e r g b _ _ _ _ h
    rw [isDarkTheme, decide_eq_true h]
    simp

/-- Concrete instance of the brightness claims: unparsable background,
and a dark background rgb(10, 10, 10). -/
theorem brightness_and_dark_decision_witness :
    computedBrightness ⟨none, false, false, false, false⟩ = 255 ∧
    isDarkTheme ⟨some (10, 10, 10), false, false, false, false⟩ = true :=
  ⟨brightness_and_dark_decision.2.2.1 ⟨none, false, false, false, false⟩ rfl,
   brightness_and_dark_decision.2.2.2 ⟨some (10, 10, 10), false, false, false, false⟩
     10 10 10 rfl (by norm_num) (by norm_num) (by norm_num)
     (by norm_num [computedBrightness, brightnessOf])⟩

/-! ## Claims about the popup lifecycle -/

/-- Teardown is a no-op on a teardown result. -/
lemma removeCurrentPopup_idem (s : CState) :
    removeCurrentPopup (removeCurrentPopup s) = removeCurrentPopup s := by
  by_cases h : s.current = true <;> simp [removeCurrentPopup, h]

/-- Teardown preserves well-formedness and leaves no tracked popup. -/
lemma wf_removeCurrentPopup {s : CState} (h : WellFormed s) :
    WellFormed (removeCurrentPopup s) ∧ (removeCurrentPopup s).current = false := by
  obtain ⟨h1, h2, h3⟩ := h
  by_cases hc : s.current = true
  · rw [hc] at h1 h2 h3
    simp only [if_pos rfl] at h1 h2 h3
    rw [removeCurrentPopup, if_pos hc]
    refine ⟨⟨?_, ?_, ?_⟩, rfl⟩ <;> simp [h1, h2, h3]
  · simp only [Bool.not_eq_true] at hc
    rw [removeCurrentPopup, if_neg (by simp [hc])]
    exact ⟨⟨h1, h2, h3⟩, hc⟩

/-- Construction on a popup-free well-formed state is well-formed. -/
lemma wf_createPopupOnPage {s : CState} (h : WellFormed s)
    (hc : s.current = false) : WellFormed (createPopupOnPage s) := by
  obtain ⟨h1, h2, h3⟩ := h
  rw [hc] at h1 h2 h3
  simp only [Bool.false_eq_true, if_false] at h1 h2 h3
  refine ⟨?_, ?_, ?_⟩ <;> simp [createPopupOnPage, h1, h2, h3]

/-- Every message handler preserves the structural invariant. -/
lemma wf_handleMessage (m : Msg) {s : CState} (h : WellFormed s) :
    WellFormed (handleMessage m s).1 := by
  obtain ⟨hwf, hcur⟩ := wf_removeCurrentPopup h
  cases m with
  | showLoading hasRange =>
    rw [handleMessage, showLoadingPopup]
    cases hasRange
    · simpa using hwf
    · simpa using wf_createPopupOnPage hwf hcur
  | showDefinition success hasRange =>
    rw [handleMessage, showDefinitionPopup]
    cases success
    · simp only [Bool.not_false, if_true]
      rw [showErrorPopup]
      obtain ⟨hwf2, hcur2⟩ := wf_removeCurrentPopup hwf
      cases hasRange
      · simpa using hwf2
      · simpa using wf_createPopupOnPage hwf2 hcur2
    · simp only [Bool.not_true, Bool.false_eq_true, if_false]
      cases hasRange
      · simpa using hwf
      · simpa using wf_createPopupOnPage hwf hcur
  | showError hasRange =>
    rw [handleMessage, showErrorPopup]
    cases hasRange
    · simpa using hwf
    · simpa using wf_createPopupOnPage hwf hcur
  | unknown => exact h

/-- Any run of the message handler from the initial state is
well-formed. -/
lemma wf_runMessages (msgs : List Msg) : WellFormed (runMessages msgs) := by
  rw [runMessages]
  have : ∀ (ms : List Msg) (s : CState), WellFormed s →
      WellFormed (ms.foldl (fun s m => (handleMessage m s).1) s) := by
    intro ms
    induction ms with
    | nil => intro s hs; exact hs
    | cons m rest ih =>
      intro s hs
      exact ih _ (wf_handleMessage m hs)
  exact this msgs initCState ⟨rfl, rfl, rfl⟩

/-- C5: after any sequence of showLoading / showDefinition / showError
messages, at most one popup element exists on the page; and every
handler tears the existing popup down first, so handling a message from
`s` and from `removeCurrentPopup s` is indistinguishable. -/
theorem at_most_one_popup :
    (∀ msgs : List Msg, (runMessages msgs).domPopups ≤ 1) ∧
    (∀ (m : Msg) (s : CState), m ≠ .unknown →
      handleMessage m (removeCurrentPopup s) = handleMessage m s) := by
  constructor
  · intro msgs
    have h := (wf_runMessages msgs).1
    rw [h]
    by_cases hc : (runMessages msgs).current <;> simp [hc]
  · intro m s hm
    cases m with
    | showLoading hasRange =>
      rw [handleMessage, handleMessage, showLoadingPopup, showLoadingPopup,
        removeCurrentPopup_idem]
    | showDefinition success hasRange =>
      rw [handleMessage, handleMessage, showDefinitionPopup, showDefinitionPopup,
        removeCurrentPopup_idem]
    | showError hasRange =>
      rw [handleMessage, handleMessage, showErrorPopup, showErrorPopup,
        removeCurrentPopup_idem]
    | unknown => exact absurd rfl hm

/-- Concrete instance of the teardown-first property. -/
theorem at_most_one_popup_witness :
    handleMessage (.showError true) (removeCurrentPopup (createPopupOnPage initCState))
        = handleMessage (.showError true) (createPopupOnPage initCState) :=
  at_most_one_popup.2 (.showError true) (createPopupOnPage initCState) (by decide)

/-- C9: tearing down when no popup is tracked is a no-op — the state
(and so the DOM and the listener registrations) is unchanged — and a
second teardown after any teardown is also a no-op. -/
theorem removeCurrentPopup_noop (s : CState) :
    (s.current = false → removeCurrentPopup s = s) ∧
    removeCurrentPopup (removeCurrentPopup s) = removeCurrentPopup s := by
  constructor
  · intro h
    rw [removeCurrentPopup, h]
    simp
  · exact removeCurrentPopup_idem s

/-- Concrete instance of dismissal idempotence: closing with no popup
present leaves the initial state untouched. -/
theorem removeCurrentPopup_noop_witness :
    removeCurrentPopup initCState = initCState :=
  (removeCurrentPopup_noop initCState).1 rfl

/-- C10: when the page selection has no range, each show handler (with
a success envelope in the showDefinition case) only tears down the
existing popup and responds `{success: true}`: the resulting page has
zero popup elements and no new listeners are registered. -/
theorem handler_without_range (s : CState) (m : Msg) (hwf : WellFormed s)
    (hm : m = .showLoading false ∨ m = .showDefinition true false ∨
      m = .showError false) :
    handleMessage m s = (removeCurrentPopup s, true) ∧
    (handleMessage m s).1.domPopups = 0 ∧
    (handleMessage m s).1.escListeners ≤ s.escListeners ∧
    (handleMessage m s).1.clickListeners ≤ s.clickListeners := by
  have hs : handleMessage m s = (removeCurrentPopup s, true) := by
    rcases hm with rfl | rfl | rfl
    · rw [handleMessage, showLoadingPopup]
      simp
    · rw [handleMessage, showDefinitionPopup]
      simp
    · rw [handleMessage, showErrorPopup]
      simp
  refine ⟨hs, ?_, ?_, ?_⟩ <;> rw [hs]
  · have h1 := (wf_removeCurrentPopup hwf).1.1
    have h2 := (wf_removeCurrentPopup hwf).2
    rw [h2] at h1
    simpa using h1
  · rw [removeCurrentPopup]
    by_cases hc : s.current = true
    · rw [if_pos hc]
      simp
    · rw [if_neg hc]
  · rw [removeCurrentPopup]
    by_cases hc : s.current = true
    · rw [if_pos hc]
      simp
    · rw [if_neg hc]

/-- Concrete instance of the no-range behavior: a loading message with
a collapsed selection removes the one existing popup and responds with
success. -/
theorem handler_without_range_witness :
    handleMessage (.showLoading false) (createPopupOnPage initCState)
        = (removeCurrentPopup (createPopupOnPage initCState), true) ∧
    (handleMessage (.showLoading false) (createPopupOnPage initCState)).1.domPopups = 0 ∧
    (handleMessage (.showLoading false) (createPopupOnPage initCState)).1.escListeners
        ≤ (createPopupOnPage initCState).escListeners ∧
    (handleMessage (.showLoading false) (createPopupOnPage initCState)).1.clickListeners
        ≤ (createPopupOnPage initCState).clickListeners :=
  handler_without_range (createPopupOnPage initCState) (.showLoading false)
    ⟨rfl, rfl, rfl⟩ (Or.inl rfl)

/-! ## Claims about the positioning engine -/

/-- The unclamped horizontal position: the popup centered on the
selection's midpoint, in page coordinates (content.js line 334). -/
def rawLeft (e : PosEnv) : ℚ :=
  e.rect.left + e.scrollLeft + e.rect.width / 2 - e.popupWidth / 2

/-- A scrolled page (scrollTop = 1000) whose viewport is too small for
the popup on either side of the selection, with more space above. -/
def posEnvCex : PosEnv :=
  ⟨⟨5, 6, 100, 10⟩, 1000, 0, 100, 50, 8, 500⟩

/-- C3 counterexample: in the no-fit fallback the code clamps the
above-placement top with `Math.max(10, ...)`, a page coordinate, not
the viewport's top edge plus a 10px inset. Here neither side fits,
above has more room, and the computed top 900 lies 110px above the
viewport's top edge (page coordinate 1000), violating the claimed
10px-inset viewport clamp, which would give 1010. -/
theorem positionPopup_viewport_clamp_cex :
    posEnvCex.rect.top < posEnvCex.popupHeight + 5 ∧
    posEnvCex.innerHeight - posEnvCex.rect.bottom < posEnvCex.popupHeight + 5 ∧
    posEnvCex.rect.top > posEnvCex.innerHeight - posEnvCex.rect.bottom ∧
    (positionPopup posEnvCex).above = true ∧
    (positionPopup posEnvCex).top = 900 ∧
    (positionPopup posEnvCex).top < posEnvCex.scrollTop + 10 := by
  refine ⟨by norm_num [posEnvCex], by norm_num [posEnvCex], by norm_num [posEnvCex],
    ?_, ?_, ?_⟩ <;>
    norm_num [positionPopup, posEnvCex]

/-- C3 amended: the first two branches and the horizontal rule are as
claimed; in the no-fit fallback the above side clamps the top to a
minimum of 10 in page (document) coordinates, and the below side clamps
it to the viewport's bottom edge with a 10px inset. -/
theorem positionPopup_placement (e : PosEnv) :
    (e.rect.top ≥ e.popupHeight + 5 →
      (positionPopup e).top = e.rect.top + e.scrollTop - e.popupHeight - 5 ∧
      (positionPopup e).above = true) ∧
    (¬(e.rect.top ≥ e.popupHeight + 5) →
      e.innerHeight - e.rect.bottom ≥ e.popupHeight + 5 →
      (positionPopup e).top = e.rect.bottom + e.scrollTop + 5 ∧
      (positionPopup e).above = false) ∧
    (¬(e.rect.top ≥ e.popupHeight + 5) →
      ¬(e.innerHeight - e.rect.bottom ≥ e.popupHeight + 5) →
      e.rect.top > e.innerHeight - e.rect.bottom →
      (positionPopup e).top
          = max 10 (e.rect.top + e.scrollTop - e.popupHeight - 5) ∧
      (positionPopup e).above = true) ∧
    (¬(e.rect.top ≥ e.popupHeight + 5) →
      ¬(e.innerHeight - e.rect.bottom ≥ e.popupHeight + 5) →
      ¬(e.rect.top > e.innerHeight - e.rect.bottom) →
      (positionPopup e).top
          = min (e.innerHeight + e.scrollTop - e.popupHeight - 10)
              (e.rect.bottom + e.scrollTop + 5) ∧
      (positionPopup e).above = false) ∧
    (10 ≤ e.innerWidth - e.popupWidth - 10 →
      10 ≤ (positionPopup e).left ∧
      (positionPopup e).left ≤ e.innerWidth - e.popupWidth - 10) ∧
    (10 ≤ rawLeft e → rawLeft e ≤ e.innerWidth - e.popupWidth - 10 →
      (positionPopup e).left = rawLeft e) := by
  refine ⟨?_, ?_, ?_, ?_, ?_, ?_⟩
  · intro h1
    rw [positionPopup]
    simp only [if_pos h1]
    exact ⟨trivial, trivial⟩
  · intro h1 h2
    rw [positionPopup]
    simp only [if_neg h1, if_pos h2]
    exact ⟨trivial, trivial⟩
  · intro h1 h2 h3
    rw [positionPopup]
    simp only [if_neg h1, if_neg h2, if_pos h3]
    exact ⟨trivial, trivial⟩
  · intro h1 h2 h3
    rw [positionPopup]
    simp only [if_neg h1, if_neg h2, if_neg h3]
    exact ⟨trivial, trivial⟩
  · intro h1
    rw [positionPopup]
    simp only []
    constructor
    · dsimp only
      split
      · linarith
      · split
        · linarith
        · linarith
    · dsimp only
      split
      · linarith
      · split
        · linarith
        · linarith
  · intro h1 h2
    rw [positionPopup]
    dsimp only
    rw [if_neg (by rw [rawLeft] at h1; linarith), if_neg (by rw [rawLeft] at h2; linarith)]
    rw [rawLeft]

/-- Concrete instance of the amended placement claim: a selection with
ample space above, whose centered popup needs no horizontal clamping. -/
theorem positionPopup_placement_witness :
    (positionPopup ⟨⟨200, 210, 100, 10⟩, 0, 0, 100, 50, 600, 500⟩).top = 95 ∧
    (positionPopup ⟨⟨200, 210, 100, 10⟩, 0, 0, 100, 50, 600, 500⟩).left
        = rawLeft ⟨⟨200, 210, 100, 10⟩, 0, 0, 100, 50, 600, 500⟩ :=
  ⟨((positionPopup_placement ⟨⟨200, 210, 100, 10⟩, 0, 0, 100, 50, 600, 500⟩).1
      (by norm_num)).1.trans (by norm_num),
   (positionPopup_placement ⟨⟨200, 210, 100, 10⟩, 0, 0, 100, 50, 600, 500⟩).2.2.2.2.2
      (by norm_num [rawLeft]) (by norm_num [rawLeft])⟩
